import Mathlib

/-
Shallow embedding of the submodule update analyzer
(src/.github/scripts/mcp_analyzer.py) and verification of its
specification.

Modelling conventions:
- Commit messages, risk keywords and breaking-change patterns are
  sequences of character codes (List Nat); Python's str.lower is
  modelled as the ASCII case map (codes 65..90 shift to 97..122),
  and Python's substring test `pat in s` as list-infix containment.
- Python dicts of configuration are modelled as explicit structures;
  `dict.get(key, default)` becomes an Option field with getD.
- The git collaborator (subprocess calls) is a record of functions
  (GitEnv); a failed git command returns the empty string, exactly as
  _run_git_command does.
- Python dict literal lookups (the emoji badge tables) are modelled as
  association-list lookups returning Option; a `none` models the
  KeyError that a lookup miss would raise.
-/

namespace McpAnalyzer

/-- Character codes of a string literal (used to state concrete inputs). -/
def enc (s : String) : List Nat :=
  s.data.map Char.toNat

/-- Render character codes back to a string (used by the PR body builder). -/
def decode (l : List Nat) : String :=
  String.mk (l.map Char.ofNat)

/-- Python's str.strip: drop leading and trailing whitespace. -/
def pyStrip (s : String) : String :=
  String.mk (((s.data.dropWhile Char.isWhitespace).reverse.dropWhile
    Char.isWhitespace).reverse)

/-- ASCII lower-casing of one character code, modelling str.lower per char. -/
def lowerN (c : Nat) : Nat :=
  if 65 ≤ c ∧ c ≤ 90 then c + 32 else c

/-- Lower-casing of a message, modelling `commit.message.lower()`. -/
def lowerL (s : List Nat) : List Nat :=
  s.map lowerN

/-- Python's substring test `pat in hay` on code sequences. -/
def isSub (pat hay : List Nat) : Bool :=
  decide (pat <:+: hay)

/-- CommitInfo dataclass (mcp_analyzer.py lines 13-19). -/
structure CommitInfo where
  hash : String
  message : List Nat
  author : String
  date : String
  files_changed : List String
deriving DecidableEq

/-- SubmoduleAnalysis dataclass (lines 21-32). -/
structure SubmoduleAnalysis where
  name : String
  path : String
  old_commit : String
  new_commit : String
  commits_count : Nat
  commits : List CommitInfo
  risk_level : String
  change_type : String
  breaking_changes : Bool
  suggested_reviewers : List String
deriving DecidableEq

/-- AnalysisResult dataclass (lines 34-42). -/
structure AnalysisResult where
  summary : String
  submodules : List SubmoduleAnalysis
  total_commits : Nat
  overall_risk : String
  suggested_reviewers : List String
  pr_title : String
  pr_body : String
deriving DecidableEq

/-- Per-submodule configuration entry (the values of config["submodules"]).
Absent keys of the Python dict are the field defaults used by .get. -/
structure SubmoduleConfig where
  reviewers : List String := []
  critical : Bool := false
  breaking_change_patterns : Option (List (List Nat)) := none
deriving DecidableEq

/-- The analyzer configuration dict.  risk_keywords is flattened into the
  three tier fields (the code reads only "high" and "medium"; "low" is
  present in the default config but never read). -/
structure Config where
  submodules : List (String × SubmoduleConfig) := []
  default_reviewers : List String := []
  risk_keywords_high : List (List Nat) := []
  risk_keywords_medium : List (List Nat) := []
  risk_keywords_low : List (List Nat) := []
  breaking_patterns : Option (List (List Nat)) := none
deriving DecidableEq

/-- The built-in default configuration returned by _load_config when
  submodule_config.json is absent (lines 80-89). -/
def defaultConfig : Config :=
  { submodules := [],
    default_reviewers := ["remr11"],
    risk_keywords_high :=
      [enc "security", enc "auth", enc "database", enc "migration", enc "breaking"],
    risk_keywords_medium :=
      [enc "api", enc "config", enc "deps", enc "dependency", enc "feature"],
    risk_keywords_low :=
      [enc "docs", enc "test", enc "style", enc "format", enc "refactor"],
    breaking_patterns :=
      some [enc "BREAKING", enc "breaking:", enc "!:", enc "feat!:"] }

/-- Python: self.config.get("submodules", dict()).get(submodule_name, dict()) (line 142). -/
def lookupSub (cfg : Config) (name : String) : SubmoduleConfig :=
  (cfg.submodules.lookup name).getD {}

/-- Breaking-pattern resolution (lines 145-146): the submodule override if
  present, else config["breaking_patterns"], else the literal fallback. -/
def resolvePatterns (cfg : Config) (sc : SubmoduleConfig) : List (List Nat) :=
  sc.breaking_change_patterns.getD
    (cfg.breaking_patterns.getD [enc "BREAKING", enc "breaking:", enc "!:"])

/-- The three counters threaded through the commit loop (lines 148-150). -/
structure RiskCounts where
  high : Nat
  medium : Nat
  breaking : Bool
deriving DecidableEq

/-- One iteration of the commit loop of _analyze_risk_level (lines 152-171):
  the breaking-pattern scan (first match sets the flag and bumps the high
  counter, then breaks), followed unconditionally by the high-keyword scan,
  whose for/else falls through to the medium-keyword scan only when no high
  keyword matched. -/
def commitStep (bps hk mk : List (List Nat)) (st : RiskCounts) (msg : List Nat) :
    RiskCounts :=
  let message_lower := lowerL msg
  let st1 :=
    if bps.any (fun pattern => isSub (lowerL pattern) message_lower) then
      { st with breaking := true, high := st.high + 1 }
    else st
  if hk.any (fun keyword => isSub keyword message_lower) then
    { st1 with high := st1.high + 1 }
  else if mk.any (fun keyword => isSub keyword message_lower) then
    { st1 with medium := st1.medium + 1 }
  else st1

/-- The whole commit loop, from zeroed counters. -/
def riskCounts (bps hk mk : List (List Nat)) (commits : List CommitInfo) :
    RiskCounts :=
  commits.foldl (fun st c => commitStep bps hk mk st c.message) ⟨0, 0, false⟩

/-- Python _analyze_risk_level (lines 139-191): returns
  (risk_level, change_type, has_breaking_changes). -/
def analyze_risk_level (cfg : Config) (commits : List CommitInfo)
    (submodule_name : String) : String × String × Bool :=
  let sc := lookupSub cfg submodule_name
  let is_critical := sc.critical
  let bps := resolvePatterns cfg sc
  let counts := riskCounts bps cfg.risk_keywords_high cfg.risk_keywords_medium commits
  let risk_level :=
    if counts.breaking = true ∨ 0 < counts.high then "high"
    else if 2 < counts.medium ∨ (0 < counts.medium ∧ is_critical = true) then "medium"
    else "low"
  let change_type :=
    if counts.breaking = true then "breaking"
    else if commits.any (fun c => isSub (enc "feat") (lowerL c.message)) then "feature"
    else if commits.any (fun c => isSub (enc "fix") (lowerL c.message)) then "bugfix"
    else "maintenance"
  (risk_level, change_type, counts.breaking)

/-- Python _get_suggested_reviewers (lines 193-202): default reviewers unioned with
  each analyzed submodule's configured reviewers.  Python iterates a set, whose
  order is unspecified; we fix first-occurrence order and deduplicate. -/
def get_suggested_reviewers (cfg : Config) (analyses : List SubmoduleAnalysis) :
    List String :=
  (cfg.default_reviewers ++
    analyses.flatMap (fun a => (lookupSub cfg a.name).reviewers)).dedup

/-- The risk-badge dict literal of line 228; a missing key is a KeyError,
  modelled as none. -/
def riskEmoji (rl : String) : Option String :=
  ([("high", "🔴"), ("medium", "🟡"), ("low", "🟢")]).lookup rl

/-- The change-badge dict literal of lines 229-234. -/
def changeEmoji (ct : String) : Option String :=
  ([("breaking", "💥"), ("feature", "✨"), ("bugfix", "🐛"),
    ("maintenance", "🔧")]).lookup ct

/-- ASCII upper-casing of one character code, modelling str.upper per char. -/
def upperN (c : Nat) : Nat :=
  if 97 ≤ c ∧ c ≤ 122 then c - 32 else c

/-- Python submodule.risk_level.upper() on the ASCII risk-level strings. -/
def pyUpper (s : String) : String :=
  String.mk (s.data.map (fun c => Char.ofNat (upperN c.toNat)))

/-- Python submodule.change_type.title() on the single-word change-type strings:
  capitalize the first character. -/
def pyTitle (s : String) : String :=
  match s.data with
  | [] => ""
  | c :: rest => String.mk (Char.ofNat (upperN c.toNat) :: rest)

/-- One rendered commit bullet (line 249). -/
def commitLine (c : CommitInfo) : String :=
  "- `" ++ c.hash ++ "` " ++ decode c.message ++ " (" ++ c.author ++ ")"

/-- The recent-commits section of one submodule block (lines 246-252):
  nothing when the materialized list is empty, otherwise a heading, the
  first five commits of the list, and a "more commits" note when the list
  is longer than five. -/
def recentCommitLines (s : SubmoduleAnalysis) : List String :=
  if s.commits.isEmpty then []
  else
    ["\n**Recent commits**:"]
      ++ (s.commits.take 5).map commitLine
      ++ (if 5 < s.commits.length then
            ["- ... and " ++ toString (s.commits.length - 5) ++ " more commits"]
          else [])

/-- The per-submodule body block (lines 227-254); none models the KeyError
  of an unrecognized risk level or change type. -/
def submoduleBlock (s : SubmoduleAnalysis) : Option (List String) :=
  match riskEmoji s.risk_level, changeEmoji s.change_type with
  | some re, some ce =>
    some (["### " ++ ce ++ " " ++ s.name,
           "- **Risk Level**: " ++ re ++ " " ++ pyUpper s.risk_level,
           "- **Change Type**: " ++ pyTitle s.change_type,
           "- **Commits**: " ++ toString s.commits_count,
           "- **From**: `" ++ s.old_commit ++ "` → **To**: `" ++ s.new_commit ++ "`"]
      ++ (if s.breaking_changes then ["- ⚠️  **CONTAINS BREAKING CHANGES**"] else [])
      ++ recentCommitLines s
      ++ [""])
  | _, _ => none

/-- The loop over submodules building their body blocks; the first KeyError
  aborts, as an uncaught exception would. -/
def bodyBlocks : List SubmoduleAnalysis → Option (List String)
  | [] => some []
  | s :: rest =>
    match submoduleBlock s, bodyBlocks rest with
    | some b, some bs => some (b ++ bs)
    | _, _ => none

/-- The PR title (lines 208-216). -/
def prTitle (r : AnalysisResult) : String :=
  match r.submodules with
  | [s] =>
    let t := "🤖 Update " ++ s.name ++ " (" ++ toString s.commits_count ++ " commits)"
    if s.breaking_changes then "💥 " ++ t ++ " - BREAKING CHANGES" else t
  | _ =>
    let t := "🤖 Update " ++ toString r.submodules.length ++ " submodules ("
               ++ toString r.total_commits ++ " commits)"
    if r.submodules.any (fun s => s.breaking_changes) then
      "💥 " ++ t ++ " - BREAKING CHANGES"
    else t

/-- Python _generate_pr_content (lines 204-271): the title and the newline-joined
  body parts; none models a KeyError escaping from the badge lookups. -/
def generate_pr_content (r : AnalysisResult) : Option (String × String) :=
  match bodyBlocks r.submodules with
  | none => none
  | some blocks =>
    let body_parts :=
      ["## 📊 Summary\n\n" ++ r.summary,
       "## 📦 Submodule Details\n"]
      ++ blocks
      ++ ["## ✅ Review Checklist\n",
          "- [ ] Verify all submodule updates are expected",
          "- [ ] Check for breaking changes impact",
          "- [ ] Ensure CI/CD compatibility",
          "- [ ] Update documentation if needed"]
      ++ (if r.submodules.any (fun s => s.breaking_changes) then
            ["- [ ] 💥 **CRITICAL**: Review breaking changes carefully",
             "- [ ] Update dependent code if necessary"]
          else [])
      ++ ["\n---",
          "*🤖 Generated automatically by submodule-bot with AI analysis*"]
    some (prTitle r, String.intercalate "\n" body_parts)

/-- One input descriptor (lines 279-282); old_commit is none when the JSON
  key is absent, in which case .get supplies "". -/
structure SubmoduleInfo where
  path : String
  new_commit : String
  old_commit : Option String
deriving DecidableEq

/-- The git collaborator: rev-parse of the previous HEAD ("" on failure,
  exactly what _run_git_command returns), the split lines of
  rev-list --reverse old..new, and _get_commit_info. -/
structure GitEnv where
  revParsePrev : String → String
  revList : String → String → String → List String
  commitInfo : String → String → CommitInfo

/-- Old-revision resolution (lines 282-288, before the skip check). -/
def resolveOld (env : GitEnv) (info : SubmoduleInfo) : String :=
  let old_commit := info.old_commit.getD ""
  if old_commit = "" ∨ old_commit = "unknown" then env.revParsePrev info.path
  else old_commit

/-- Path(path).name: the last non-empty slash-separated segment. -/
def pathName (p : String) : String :=
  ((p.splitOn "/").filter (fun seg => seg ≠ "")).getLastD ""

/-- The commit materialization loop (lines 306-310): at most the first 10
  hashes, skipping blank lines, each resolved through the collaborator. -/
def materializeCommits (env : GitEnv) (path : String) (hashes : List String) :
    List CommitInfo :=
  (hashes.take 10).filterMap
    (fun h => if pyStrip h = "" then none else some (env.commitInfo (pyStrip h) path))

/-- Lines 290-330: the analysis built for one descriptor once its old
  revision resolved to a non-empty string. -/
def buildAnalysis (env : GitEnv) (cfg : Config)
    (path new_commit old_commit : String) : SubmoduleAnalysis :=
  let submodule_name := pathName path
  let cc :=
    if old_commit ≠ "" ∧ old_commit ≠ new_commit then
      let commit_hashes := env.revList path old_commit new_commit
      (materializeCommits env path commit_hashes,
       (commit_hashes.filter (fun c => pyStrip c ≠ "")).length)
    else ([], 0)
  let rct := analyze_risk_level cfg cc.1 submodule_name
  { name := submodule_name,
    path := path,
    old_commit := if old_commit ≠ "" then old_commit.take 8 else "unknown",
    new_commit := new_commit.take 8,
    commits_count := cc.2,
    commits := cc.1,
    risk_level := rct.1,
    change_type := rct.2.1,
    breaking_changes := rct.2.2,
    suggested_reviewers := (lookupSub cfg submodule_name).reviewers }

/-- One iteration of the descriptor loop (lines 279-332): none is the
  `continue` that silently skips an unresolvable submodule. -/
def processSubmodule (env : GitEnv) (cfg : Config) (info : SubmoduleInfo) :
    Option SubmoduleAnalysis :=
  let old_commit := resolveOld env info
  if old_commit = "" then none
  else some (buildAnalysis env cfg info.path info.new_commit old_commit)

/-- The overall-risk computation (lines 336-343). -/
def overallRisk (analyses : List SubmoduleAnalysis) : String :=
  if analyses.any (fun s => s.breaking_changes) then "high"
  else if analyses.any (fun s => s.risk_level == "high") then "high"
  else if analyses.any (fun s => s.risk_level == "medium") then "medium"
  else "low"

/-- The summary sentence (lines 346-350). -/
def summaryText (n total breaking_count : Nat) : String :=
  if 0 < breaking_count then
    "🚨 Updated " ++ toString n ++ " submodule(s) with " ++ toString total
      ++ " total commits. " ++ toString breaking_count
      ++ " submodule(s) contain BREAKING CHANGES that require careful review."
  else
    "✅ Updated " ++ toString n ++ " submodule(s) with " ++ toString total
      ++ " total commits. No breaking changes detected."

/-- analyze_submodules up to line 363: the AnalysisResult before the PR
  title and body are filled in (Python constructs it with empty strings and
  mutates the two fields afterwards). -/
def analyze_submodules_core (env : GitEnv) (cfg : Config)
    (data : List SubmoduleInfo) : AnalysisResult :=
  let submodule_analyses := data.filterMap (processSubmodule env cfg)
  let total_commits := (submodule_analyses.map (fun a => a.commits_count)).sum
  let breaking_count := (submodule_analyses.filter (fun s => s.breaking_changes)).length
  { summary := summaryText submodule_analyses.length total_commits breaking_count,
    submodules := submodule_analyses,
    total_commits := total_commits,
    overall_risk := overallRisk submodule_analyses,
    suggested_reviewers := get_suggested_reviewers cfg submodule_analyses,
    pr_title := "",
    pr_body := "" }

/-- analyze_submodules (lines 273-370): the core result with the generated
  PR title and body; none models the run aborting on a KeyError from the
  badge tables. -/
def analyze_submodules (env : GitEnv) (cfg : Config) (data : List SubmoduleInfo) :
    Option AnalysisResult :=
  let result0 := analyze_submodules_core env cfg data
  (generate_pr_content result0).map
    (fun tb => { result0 with pr_title := tb.1, pr_body := tb.2 })

/-! ### Concrete inputs used by counterexamples and witnesses -/

/-- A commit whose message contains both a breaking marker and a high-risk
  keyword of the default configuration. -/
def breakingAuthCommit : CommitInfo :=
  ⟨"abc12345", enc "BREAKING: auth rework", "alice", "2024-01-01", []⟩

/-- A commit matching only the default medium keyword "config". -/
def mediumCommit : CommitInfo :=
  ⟨"bcde1234", enc "config cleanup", "bob", "2024-01-02", []⟩

/-- A feature commit matching no default risk keyword. -/
def featCommit : CommitInfo :=
  ⟨"cdef1234", enc "feat: add widget", "carol", "2024-01-03", []⟩

/-- A configuration marking frontend-lib critical, with no keyword overrides. -/
def critConfig : Config :=
  { defaultConfig with
      submodules :=
        [("frontend-lib",
          { reviewers := [], critical := true, breaking_change_patterns := none })] }

/-- The i-th synthetic commit of the truncation examples. -/
def mkCommit (i : Nat) : CommitInfo :=
  ⟨"h" ++ toString i, enc ("msg " ++ toString i), "a", "2024-01-01", []⟩

/-- A collaborator whose previous-HEAD lookup always fails and whose range
  query returns twelve commit hashes. -/
def env0 : GitEnv :=
  { revParsePrev := fun _ => "",
    revList := fun _ _ _ => (List.range 12).map (fun i => "h" ++ toString i),
    commitInfo := fun h _ => ⟨h, enc "msg", "a", "2024-01-01", []⟩ }

/-- An analysis holding six materialized commits, ordered oldest first. -/
def sixAnalysis : SubmoduleAnalysis :=
  { name := "widget", path := "libs/widget",
    old_commit := "oldrev12", new_commit := "newrev12",
    commits_count := 6,
    commits := [mkCommit 1, mkCommit 2, mkCommit 3, mkCommit 4, mkCommit 5, mkCommit 6],
    risk_level := "low", change_type := "maintenance", breaking_changes := false,
    suggested_reviewers := [] }

/-! ### Helper lemmas -/

/-- ASCII lower-casing never yields an uppercase code. -/
theorem lowerN_not_upper (c : Nat) : ¬(65 ≤ lowerN c ∧ lowerN c ≤ 90) := by
  unfold lowerN
  split <;> omega

/-- A keyword holding an uppercase character is never a substring of a
  lower-cased message. -/
theorem isSub_upper_false (k msg : List Nat) (c : Nat) (hc : c ∈ k)
    (hu : 65 ≤ c ∧ c ≤ 90) : isSub k (lowerL msg) = false := by
  simp only [isSub, decide_eq_false_iff_not]
  intro hinf
  have hm : c ∈ lowerL msg := hinf.subset hc
  rcases List.mem_map.mp hm with ⟨d, _, hd⟩
  exact lowerN_not_upper d (hd.symm ▸ hu)

/-- The counters of the classifier for a submodule, as resolved from the
  configuration (the arguments _analyze_risk_level feeds its commit loop). -/
def countsFor (cfg : Config) (commits : List CommitInfo) (name : String) :
    RiskCounts :=
  riskCounts (resolvePatterns cfg (lookupSub cfg name))
    cfg.risk_keywords_high cfg.risk_keywords_medium commits

theorem analyze_risk_level_fst (cfg : Config) (commits : List CommitInfo)
    (name : String) :
    (analyze_risk_level cfg commits name).1 =
      if (countsFor cfg commits name).breaking = true ∨
          0 < (countsFor cfg commits name).high then "high"
      else if 2 < (countsFor cfg commits name).medium ∨
          (0 < (countsFor cfg commits name).medium ∧
           (lookupSub cfg name).critical = true) then "medium"
      else "low" := rfl

theorem analyze_risk_level_change (cfg : Config) (commits : List CommitInfo)
    (name : String) :
    (analyze_risk_level cfg commits name).2.1 =
      if (countsFor cfg commits name).breaking = true then "breaking"
      else if commits.any (fun c => isSub (enc "feat") (lowerL c.message)) then "feature"
      else if commits.any (fun c => isSub (enc "fix") (lowerL c.message)) then "bugfix"
      else "maintenance" := rfl

theorem analyze_risk_level_breaking (cfg : Config) (commits : List CommitInfo)
    (name : String) :
    (analyze_risk_level cfg commits name).2.2 =
      (countsFor cfg commits name).breaking := rfl

/-! ### Claims -/

/-- C1, counterexample: on the default configuration, the single commit
  "BREAKING: auth rework" matches the breaking marker "BREAKING" and the
  high keyword "auth", so it increments the high-risk counter twice — the
  keyword checks are applied even after a breaking marker matched. -/
theorem C1_counterexample :
    (riskCounts (resolvePatterns defaultConfig (lookupSub defaultConfig "frontend-lib"))
        defaultConfig.risk_keywords_high defaultConfig.risk_keywords_medium
        [breakingAuthCommit]).high = 2 := by
  decide

/-- C1, amended: per commit, the breaking scan adds at most one to the
  high-risk counter (first marker wins), but the keyword checks still run
  afterwards: the high-risk counter also gains one when a high keyword
  matches, and the medium counter gains one exactly when no high keyword
  but a medium keyword matches; only the high/medium keyword checks are
  mutually exclusive. -/
theorem C1_per_commit_counters (bps hk mk : List (List Nat)) (st : RiskCounts)
    (msg : List Nat) :
    (commitStep bps hk mk st msg).high =
      st.high +
        (if bps.any (fun pattern => isSub (lowerL pattern) (lowerL msg)) = true
         then 1 else 0) +
        (if hk.any (fun keyword => isSub keyword (lowerL msg)) = true
         then 1 else 0) ∧
    (commitStep bps hk mk st msg).medium =
      st.medium +
        (if hk.any (fun keyword => isSub keyword (lowerL msg)) = false ∧
            mk.any (fun keyword => isSub keyword (lowerL msg)) = true
         then 1 else 0) ∧
    (commitStep bps hk mk st msg).breaking =
      (st.breaking || bps.any (fun pattern => isSub (lowerL pattern) (lowerL msg))) := by
  unfold commitStep
  rcases hb : bps.any (fun pattern => isSub (lowerL pattern) (lowerL msg)) <;>
    rcases hh : hk.any (fun keyword => isSub keyword (lowerL msg)) <;>
      rcases hm : mk.any (fun keyword => isSub keyword (lowerL msg)) <;>
        simp [hb, hh, hm]

/-- C6: the empty commit list classifies as low / maintenance / not breaking,
  for every configuration and submodule name. -/
theorem C6_empty_commits (cfg : Config) (name : String) :
    analyze_risk_level cfg [] name = ("low", "maintenance", false) := by
  simp [analyze_risk_level, riskCounts]

/-- C10: case handling is asymmetric.  A high or medium keyword holding an
  uppercase character never matches a lower-cased message and its presence
  leaves the commit-loop state unchanged, while a breaking marker is itself
  lower-cased first, so markers differing only in case act identically. -/
theorem C10_case_asymmetry :
    (∀ (k msg : List Nat), (∃ c ∈ k, 65 ≤ c ∧ c ≤ 90) →
       isSub k (lowerL msg) = false) ∧
    (∀ (bps hk mk : List (List Nat)) (st : RiskCounts) (msg k : List Nat),
       (∃ c ∈ k, 65 ≤ c ∧ c ≤ 90) →
       commitStep bps (k :: hk) mk st msg = commitStep bps hk mk st msg ∧
       commitStep bps hk (k :: mk) st msg = commitStep bps hk mk st msg) ∧
    (∀ (bps hk mk : List (List Nat)) (st : RiskCounts) (msg p q : List Nat),
       lowerL p = lowerL q →
       commitStep (p :: bps) hk mk st msg = commitStep (q :: bps) hk mk st msg) := by
  refine ⟨?_, ?_, ?_⟩
  · rintro k msg ⟨c, hc, hu⟩
    exact isSub_upper_false k msg c hc hu
  · rintro bps hk mk st msg k ⟨c, hc, hu⟩
    have hfalse : isSub k (lowerL msg) = false := isSub_upper_false k msg c hc hu
    constructor <;>
      simp [commitStep, List.any_cons, hfalse]
  · intro bps hk mk st msg p q hpq
    simp [commitStep, List.any_cons, hpq]

/-- C2: the risk level is "high" exactly when the breaking flag is set or the
  high-risk counter is positive; otherwise "medium" exactly when the medium
  counter exceeds 2 or is positive on a critical submodule; otherwise "low".
  In particular one medium-keyword commit yields "medium" for a critical
  submodule and "low" for a non-critical one. -/
theorem C2_risk_level_rule (cfg : Config) (commits : List CommitInfo) (name : String) :
    ((analyze_risk_level cfg commits name).1 = "high" ↔
       ((countsFor cfg commits name).breaking = true ∨
        0 < (countsFor cfg commits name).high)) ∧
    ((analyze_risk_level cfg commits name).1 = "medium" ↔
       (¬((countsFor cfg commits name).breaking = true ∨
          0 < (countsFor cfg commits name).high) ∧
        (2 < (countsFor cfg commits name).medium ∨
         (0 < (countsFor cfg commits name).medium ∧
          (lookupSub cfg name).critical = true)))) ∧
    ((analyze_risk_level cfg commits name).1 = "low" ↔
       (¬((countsFor cfg commits name).breaking = true ∨
          0 < (countsFor cfg commits name).high) ∧
        ¬(2 < (countsFor cfg commits name).medium ∨
          (0 < (countsFor cfg commits name).medium ∧
           (lookupSub cfg name).critical = true)))) ∧
    (analyze_risk_level critConfig [mediumCommit] "frontend-lib").1 = "medium" ∧
    (analyze_risk_level defaultConfig [mediumCommit] "frontend-lib").1 = "low" := by
  refine ⟨?_, ?_, ?_, by decide, by decide⟩ <;>
    rw [analyze_risk_level_fst] <;>
      split_ifs with h1 h2 <;> simp_all

/-- C7: the change type is "breaking" exactly when the breaking flag is set,
  else "feature" when some lower-cased message contains "feat", else
  "bugfix" when some contains "fix", else "maintenance"; a commit list with
  no risk keyword can still classify as a feature. -/
theorem C7_change_type_rule (cfg : Config) (commits : List CommitInfo) (name : String) :
    ((analyze_risk_level cfg commits name).2.1 = "breaking" ↔
       (analyze_risk_level cfg commits name).2.2 = true) ∧
    ((analyze_risk_level cfg commits name).2.1 = "feature" ↔
       ((analyze_risk_level cfg commits name).2.2 = false ∧
        ∃ c ∈ commits, isSub (enc "feat") (lowerL c.message) = true)) ∧
    ((analyze_risk_level cfg commits name).2.1 = "bugfix" ↔
       ((analyze_risk_level cfg commits name).2.2 = false ∧
        ¬(∃ c ∈ commits, isSub (enc "feat") (lowerL c.message) = true) ∧
        ∃ c ∈ commits, isSub (enc "fix") (lowerL c.message) = true)) ∧
    ((analyze_risk_level cfg commits name).2.1 = "maintenance" ↔
       ((analyze_risk_level cfg commits name).2.2 = false ∧
        ¬(∃ c ∈ commits, isSub (enc "feat") (lowerL c.message) = true) ∧
        ¬(∃ c ∈ commits, isSub (enc "fix") (lowerL c.message) = true))) ∧
    analyze_risk_level defaultConfig [featCommit] "widget" = ("low", "feature", false) := by
  refine ⟨?_, ?_, ?_, ?_, by decide⟩ <;>
    rw [analyze_risk_level_change, analyze_risk_level_breaking] <;>
      split_ifs with h1 h2 h3 <;> simp_all [List.any_eq_true]

/-- C3: the overall risk is "high" exactly when some analysis is breaking or
  high, else "medium" exactly when some analysis is medium, else "low"; any
  breaking analysis forces "high" unconditionally, and the aggregator's
  overall_risk field is this composition of its submodules list. -/
theorem C3_overall_risk_rule (analyses : List SubmoduleAnalysis) :
    (overallRisk analyses = "high" ↔
       ∃ s ∈ analyses, s.breaking_changes = true ∨ s.risk_level = "high") ∧
    (overallRisk analyses = "medium" ↔
       (¬(∃ s ∈ analyses, s.breaking_changes = true ∨ s.risk_level = "high") ∧
        ∃ s ∈ analyses, s.risk_level = "medium")) ∧
    (overallRisk analyses = "low" ↔
       (¬(∃ s ∈ analyses, s.breaking_changes = true ∨ s.risk_level = "high") ∧
        ¬∃ s ∈ analyses, s.risk_level = "medium")) ∧
    ((∃ s ∈ analyses, s.breaking_changes = true) → overallRisk analyses = "high") ∧
    (∀ (env : GitEnv) (cfg : Config) (data : List SubmoduleInfo),
       (analyze_submodules_core env cfg data).overall_risk =
         overallRisk (analyze_submodules_core env cfg data).submodules) := by
  have hhigh : (∃ s ∈ analyses, s.breaking_changes = true ∨ s.risk_level = "high") ↔
      (analyses.any (fun s => s.breaking_changes) = true ∨
       analyses.any (fun s => s.risk_level == "high") = true) := by
    simp only [List.any_eq_true, beq_iff_eq]
    constructor
    · rintro ⟨s, hs, h | h⟩
      · exact Or.inl ⟨s, hs, h⟩
      · exact Or.inr ⟨s, hs, h⟩
    · rintro (⟨s, hs, h⟩ | ⟨s, hs, h⟩)
      · exact ⟨s, hs, Or.inl h⟩
      · exact ⟨s, hs, Or.inr h⟩
  have hmed : (∃ s ∈ analyses, s.risk_level = "medium") ↔
      analyses.any (fun s => s.risk_level == "medium") = true := by
    simp only [List.any_eq_true, beq_iff_eq]
  refine ⟨?_, ?_, ?_, ?_, fun env cfg data => rfl⟩
  · rw [hhigh]
    unfold overallRisk
    split_ifs with h1 h2 h3 <;> simp_all
  · rw [hhigh, hmed]
    unfold overallRisk
    split_ifs with h1 h2 h3 <;> simp_all
  · rw [hhigh, hmed]
    unfold overallRisk
    split_ifs with h1 h2 h3 <;> simp_all
  · rintro ⟨s, hs, hb⟩
    unfold overallRisk
    rw [if_pos (List.any_eq_true.mpr ⟨s, hs, hb⟩)]

/-- The materialized list never exceeds the 10-record cap. -/
theorem materializeCommits_length_le (env : GitEnv) (path : String)
    (hashes : List String) : (materializeCommits env path hashes).length ≤ 10 := by
  unfold materializeCommits
  refine le_trans (List.length_filterMap_le _ _) ?_
  rw [List.length_take]
  exact min_le_left _ _

/-- buildAnalysis written out for a genuine old..new range. -/
theorem buildAnalysis_eq (env : GitEnv) (cfg : Config)
    (path new_commit old_commit : String)
    (h1 : old_commit ≠ "") (h2 : old_commit ≠ new_commit) :
    buildAnalysis env cfg path new_commit old_commit =
      { name := pathName path,
        path := path,
        old_commit := old_commit.take 8,
        new_commit := new_commit.take 8,
        commits_count :=
          ((env.revList path old_commit new_commit).filter
            (fun c => pyStrip c ≠ "")).length,
        commits := materializeCommits env path (env.revList path old_commit new_commit),
        risk_level :=
          (analyze_risk_level cfg
            (materializeCommits env path (env.revList path old_commit new_commit))
            (pathName path)).1,
        change_type :=
          (analyze_risk_level cfg
            (materializeCommits env path (env.revList path old_commit new_commit))
            (pathName path)).2.1,
        breaking_changes :=
          (analyze_risk_level cfg
            (materializeCommits env path (env.revList path old_commit new_commit))
            (pathName path)).2.2,
        suggested_reviewers := (lookupSub cfg (pathName path)).reviewers } := by
  simp only [buildAnalysis]
  rw [if_pos (And.intro h1 h2), if_pos h1]

/-- C4: the aggregate total equals the sum of the per-submodule counts, each
  count is the full number of non-blank identifiers in the range even though
  materialization stops at 10 records, and the classifier sees only the
  materialized records. -/
theorem C4_total_commits :
    (∀ (env : GitEnv) (cfg : Config) (data : List SubmoduleInfo),
       (analyze_submodules_core env cfg data).total_commits =
         ((analyze_submodules_core env cfg data).submodules.map
           (fun s => s.commits_count)).sum) ∧
    (∀ (env : GitEnv) (cfg : Config) (path new_commit old_commit : String),
       old_commit ≠ "" → old_commit ≠ new_commit →
       (buildAnalysis env cfg path new_commit old_commit).commits_count =
           ((env.revList path old_commit new_commit).filter
             (fun c => pyStrip c ≠ "")).length ∧
       (buildAnalysis env cfg path new_commit old_commit).commits =
           materializeCommits env path (env.revList path old_commit new_commit) ∧
       (buildAnalysis env cfg path new_commit old_commit).commits.length ≤ 10 ∧
       ((buildAnalysis env cfg path new_commit old_commit).risk_level,
        (buildAnalysis env cfg path new_commit old_commit).change_type,
        (buildAnalysis env cfg path new_commit old_commit).breaking_changes) =
           analyze_risk_level cfg
             (materializeCommits env path (env.revList path old_commit new_commit))
             (pathName path)) := by
  refine ⟨fun env cfg data => rfl, ?_⟩
  intro env cfg path new_commit old_commit h1 h2
  rw [buildAnalysis_eq env cfg path new_commit old_commit h1 h2]
  exact ⟨rfl, rfl, materializeCommits_length_le env path _, rfl⟩

/-- C4 witness: twelve commits in range give a count of 12 while at most ten
  records are materialized. -/
theorem C4_witness :
    (buildAnalysis env0 defaultConfig "libs/widget" "newrev123" "oldrev123").commits_count = 12 ∧
    (buildAnalysis env0 defaultConfig "libs/widget" "newrev123" "oldrev123").commits.length ≤ 10 := by
  have h := C4_total_commits.2 env0 defaultConfig "libs/widget" "newrev123" "oldrev123"
    (by decide) (by decide)
  exact ⟨h.1.trans (by decide), h.2.2.1⟩

/-- C5: on an analysis holding six commits ordered oldest first, the rendered
  recent-commits section lists the first five records — the five OLDEST — and
  omits the newest one, then notes "1 more commits"; the code's own comment
  and the spec call for the five most recent. -/
theorem C5_renders_oldest_five :
    recentCommitLines sixAnalysis =
      ["\n**Recent commits**:",
       commitLine (mkCommit 1), commitLine (mkCommit 2), commitLine (mkCommit 3),
       commitLine (mkCommit 4), commitLine (mkCommit 5),
       "- ... and 1 more commits"] ∧
    (recentCommitLines sixAnalysis).contains (commitLine (mkCommit 6)) = false := by
  constructor
  · rfl
  · decide

/-- C8: a descriptor whose old revision is absent or "unknown" and whose
  previous-HEAD lookup fails is skipped silently (none, i.e. `continue`);
  every other descriptor yields its analysis; the result lists exactly the
  non-skipped analyses and sums exactly their counts. -/
theorem C8_silent_skip :
    (∀ (env : GitEnv) (cfg : Config) (info : SubmoduleInfo),
       (info.old_commit.getD "" = "" ∨ info.old_commit.getD "" = "unknown") →
       env.revParsePrev info.path = "" →
       processSubmodule env cfg info = none) ∧
    (∀ (env : GitEnv) (cfg : Config) (info : SubmoduleInfo),
       resolveOld env info ≠ "" →
       processSubmodule env cfg info =
         some (buildAnalysis env cfg info.path info.new_commit (resolveOld env info))) ∧
    (∀ (env : GitEnv) (cfg : Config) (data : List SubmoduleInfo),
       (analyze_submodules_core env cfg data).submodules =
           data.filterMap (processSubmodule env cfg) ∧
       (analyze_submodules_core env cfg data).total_commits =
           ((data.filterMap (processSubmodule env cfg)).map
             (fun s => s.commits_count)).sum) := by
  refine ⟨?_, ?_, fun env cfg data => ⟨rfl, rfl⟩⟩
  · intro env cfg info hold hfail
    have hres : resolveOld env info = "" := by
      simp only [resolveOld]
      rw [if_pos hold]
      exact hfail
    simp [processSubmodule, hres]
  · intro env cfg info h
    simp [processSubmodule, h]

/-- C8 witness: a descriptor with no old revision, against a collaborator
  whose previous-HEAD lookup fails, is skipped. -/
theorem C8_witness :
    processSubmodule env0 defaultConfig ⟨"libs/widget", "newrev123", none⟩ = none :=
  C8_silent_skip.1 env0 defaultConfig ⟨"libs/widget", "newrev123", none⟩ (Or.inl rfl) rfl

/-- The classifier only ever emits the three risk levels. -/
theorem risk_level_mem_values (cfg : Config) (commits : List CommitInfo)
    (name : String) :
    (analyze_risk_level cfg commits name).1 = "high" ∨
    (analyze_risk_level cfg commits name).1 = "medium" ∨
    (analyze_risk_level cfg commits name).1 = "low" := by
  rw [analyze_risk_level_fst]
  split_ifs <;> simp

/-- The classifier only ever emits the four change types. -/
theorem change_type_mem_values (cfg : Config) (commits : List CommitInfo)
    (name : String) :
    (analyze_risk_level cfg commits name).2.1 = "breaking" ∨
    (analyze_risk_level cfg commits name).2.1 = "feature" ∨
    (analyze_risk_level cfg commits name).2.1 = "bugfix" ∨
    (analyze_risk_level cfg commits name).2.1 = "maintenance" := by
  rw [analyze_risk_level_change]
  split_ifs <;> simp

theorem riskEmoji_isSome {rl : String}
    (h : rl = "high" ∨ rl = "medium" ∨ rl = "low") :
    (riskEmoji rl).isSome = true := by
  rcases h with h | h | h <;> subst h <;> decide

theorem changeEmoji_isSome {ct : String}
    (h : ct = "breaking" ∨ ct = "feature" ∨ ct = "bugfix" ∨ ct = "maintenance") :
    (changeEmoji ct).isSome = true := by
  rcases h with h | h | h | h <;> subst h <;> decide

theorem submoduleBlock_isSome (s : SubmoduleAnalysis)
    (h1 : (riskEmoji s.risk_level).isSome = true)
    (h2 : (changeEmoji s.change_type).isSome = true) :
    (submoduleBlock s).isSome = true := by
  rcases hre : riskEmoji s.risk_level with _ | re
  · rw [hre] at h1
    simp at h1
  · rcases hce : changeEmoji s.change_type with _ | ce
    · rw [hce] at h2
      simp at h2
    · simp [submoduleBlock, hre, hce]

theorem bodyBlocks_isSome (l : List SubmoduleAnalysis)
    (h : ∀ s ∈ l, (riskEmoji s.risk_level).isSome = true ∧
           (changeEmoji s.change_type).isSome = true) :
    (bodyBlocks l).isSome = true := by
  induction l with
  | nil => rfl
  | cons s rest ih =>
    have hs := h s (by simp)
    have hb := submoduleBlock_isSome s hs.1 hs.2
    have hr := ih (fun x hx => h x (by simp [hx]))
    rcases hsb : submoduleBlock s with _ | b
    · rw [hsb] at hb
      simp at hb
    · rcases hbb : bodyBlocks rest with _ | bs
      · rw [hbb] at hr
        simp at hr
      · simp [bodyBlocks, hsb, hbb]

theorem generate_pr_content_isSome (r : AnalysisResult)
    (h : ∀ s ∈ r.submodules, (riskEmoji s.risk_level).isSome = true ∧
           (changeEmoji s.change_type).isSome = true) :
    (generate_pr_content r).isSome = true := by
  have hbody := bodyBlocks_isSome r.submodules h
  rcases hbb : bodyBlocks r.submodules with _ | blocks
  · rw [hbb] at hbody
    simp at hbody
  · simp [generate_pr_content, hbb]

/-- The submodules field of the core result is exactly the filterMap of the
  descriptor loop. -/
theorem core_submodules_eq (env : GitEnv) (cfg : Config)
    (data : List SubmoduleInfo) :
    (analyze_submodules_core env cfg data).submodules =
      data.filterMap (processSubmodule env cfg) := rfl

/-- A processed descriptor's analysis is the built analysis. -/
theorem processSubmodule_some_eq (env : GitEnv) (cfg : Config)
    (info : SubmoduleInfo) (a : SubmoduleAnalysis)
    (h : processSubmodule env cfg info = some a) :
    a = buildAnalysis env cfg info.path info.new_commit (resolveOld env info) := by
  by_cases hres : resolveOld env info = ""
  · simp [processSubmodule, hres] at h
  · simp [processSubmodule, hres] at h
    exact h.symm

theorem buildAnalysis_risk_level_eq (env : GitEnv) (cfg : Config)
    (path nc oc : String) :
    (buildAnalysis env cfg path nc oc).risk_level =
      (analyze_risk_level cfg (buildAnalysis env cfg path nc oc).commits
        (pathName path)).1 := rfl

theorem buildAnalysis_change_type_eq (env : GitEnv) (cfg : Config)
    (path nc oc : String) :
    (buildAnalysis env cfg path nc oc).change_type =
      (analyze_risk_level cfg (buildAnalysis env cfg path nc oc).commits
        (pathName path)).2.1 := rfl

/-- C9: classifier outputs are always among the enumerated risk levels and
  change types, every analysis the aggregator emits satisfies both badge
  lookups, and consequently the whole run never hits the KeyError path:
  analyze_submodules always returns a result. -/
theorem C9_enumerated_badges :
    (∀ (cfg : Config) (commits : List CommitInfo) (name : String),
       (riskEmoji (analyze_risk_level cfg commits name).1).isSome = true ∧
       (changeEmoji (analyze_risk_level cfg commits name).2.1).isSome = true) ∧
    (∀ (env : GitEnv) (cfg : Config) (info : SubmoduleInfo) (a : SubmoduleAnalysis),
       processSubmodule env cfg info = some a →
       ((a.risk_level = "high" ∨ a.risk_level = "medium" ∨ a.risk_level = "low") ∧
        (a.change_type = "breaking" ∨ a.change_type = "feature" ∨
         a.change_type = "bugfix" ∨ a.change_type = "maintenance") ∧
        (riskEmoji a.risk_level).isSome = true ∧
        (changeEmoji a.change_type).isSome = true)) ∧
    (∀ (env : GitEnv) (cfg : Config) (data : List SubmoduleInfo),
       (analyze_submodules env cfg data).isSome = true) := by
  have hproc : ∀ (env : GitEnv) (cfg : Config) (info : SubmoduleInfo)
      (a : SubmoduleAnalysis), processSubmodule env cfg info = some a →
      ((a.risk_level = "high" ∨ a.risk_level = "medium" ∨ a.risk_level = "low") ∧
       (a.change_type = "breaking" ∨ a.change_type = "feature" ∨
        a.change_type = "bugfix" ∨ a.change_type = "maintenance") ∧
       (riskEmoji a.risk_level).isSome = true ∧
       (changeEmoji a.change_type).isSome = true) := by
    intro env cfg info a h
    have he := processSubmodule_some_eq env cfg info a h
    subst he
    have h1 : (buildAnalysis env cfg info.path info.new_commit
          (resolveOld env info)).risk_level = "high" ∨
        (buildAnalysis env cfg info.path info.new_commit
          (resolveOld env info)).risk_level = "medium" ∨
        (buildAnalysis env cfg info.path info.new_commit
          (resolveOld env info)).risk_level = "low" := by
      rw [buildAnalysis_risk_level_eq]
      exact risk_level_mem_values cfg _ (pathName info.path)
    have h2 : (buildAnalysis env cfg info.path info.new_commit
          (resolveOld env info)).change_type = "breaking" ∨
        (buildAnalysis env cfg info.path info.new_commit
          (resolveOld env info)).change_type = "feature" ∨
        (buildAnalysis env cfg info.path info.new_commit
          (resolveOld env info)).change_type = "bugfix" ∨
        (buildAnalysis env cfg info.path info.new_commit
          (resolveOld env info)).change_type = "maintenance" := by
      rw [buildAnalysis_change_type_eq]
      exact change_type_mem_values cfg _ (pathName info.path)
    exact ⟨h1, h2, riskEmoji_isSome h1, changeEmoji_isSome h2⟩
  refine ⟨?_, hproc, ?_⟩
  · intro cfg commits name
    exact ⟨riskEmoji_isSome (risk_level_mem_values cfg commits name),
           changeEmoji_isSome (change_type_mem_values cfg commits name)⟩
  · intro env cfg data
    have hmap : (analyze_submodules env cfg data).isSome =
        (generate_pr_content (analyze_submodules_core env cfg data)).isSome := by
      simp [analyze_submodules, Option.isSome_map]
    rw [hmap]
    apply generate_pr_content_isSome
    intro s hs
    rw [core_submodules_eq] at hs
    rcases List.mem_filterMap.mp hs with ⟨info, _, hsome⟩
    exact ⟨(hproc env cfg info s hsome).2.2.1, (hproc env cfg info s hsome).2.2.2⟩

/-- C9 witness: a concrete aggregator-produced analysis passes the risk-badge
  lookup. -/
theorem C9_witness :
    (riskEmoji (buildAnalysis env0 defaultConfig "libs/widget" "newrev123"
      "oldrev123").risk_level).isSome = true := by
  have h := C9_enumerated_badges.2.1 env0 defaultConfig
    ⟨"libs/widget", "newrev123", some "oldrev123"⟩
    (buildAnalysis env0 defaultConfig "libs/widget" "newrev123" "oldrev123") rfl
  exact h.2.2.1

/-- C2 witness: a breaking commit makes the risk level "high" through the
  rule's first branch. -/
theorem C2_witness :
    (analyze_risk_level defaultConfig [breakingAuthCommit] "frontend-lib").1 = "high" :=
  (C2_risk_level_rule defaultConfig [breakingAuthCommit] "frontend-lib").1.mpr
    (by decide)

/-- An analysis carrying breaking changes, for the overall-risk witness. -/
def breakingAnalysis : SubmoduleAnalysis :=
  { sixAnalysis with
      risk_level := "high"
      change_type := "breaking"
      breaking_changes := true }

/-- C3 witness: one breaking analysis forces overall risk "high". -/
theorem C3_witness : overallRisk [breakingAnalysis] = "high" := by
  refine (C3_overall_risk_rule [breakingAnalysis]).2.2.2.1 ?_
  refine ⟨breakingAnalysis, ?_, ?_⟩
  · simp
  · rfl

/-- C7 witness: a feat commit with no risk keyword classifies as a feature. -/
theorem C7_witness :
    (analyze_risk_level defaultConfig [featCommit] "widget").2.1 = "feature" :=
  (C7_change_type_rule defaultConfig [featCommit] "widget").2.1.mpr
    ⟨by decide, featCommit, by simp, by decide⟩

/-- C10 witness: the upper-case keyword "API" never matches a lower-cased
  message that spells it in lower case. -/
theorem C10_witness : isSub (enc "API") (lowerL (enc "api change")) = false :=
  C10_case_asymmetry.1 (enc "API") (enc "api change") ⟨65, by decide, by decide⟩

end McpAnalyzer
